import Mathlib

/-!
Shallow embedding of the theia-controller reconciliation engine
(src/controllers/theia_controller.go) and proofs about its claims.

Cluster reads/writes are modelled by explicit inputs (the observed child
objects, passed in as `Option` values) and explicit outputs (a list of
`Action`s the pass issues).  Go machine integers (int32/int64) never come
near overflow here, so they are modelled as `Int`.  Go `nil` slices versus
non-nil slices matter to the code (`container.Ports == nil`), so slice
fields with a meaningful nil are `Option (List _)`.  A Go panic (nil
dereference / index out of range) is modelled by `Option.none` results.
-/

namespace TheiaController

/-- Association-list lookup standing for a Go `map[string]string` read. -/
def lookupKV (l : List (String × String)) (k : String) : Option String :=
  match l.find? (fun kv => kv.1 == k) with
  | some kv => some kv.2
  | none => none

/-- Association-list insert standing for a Go `m[k] = v` map write.  Go
maps are unordered, so any representation with the right lookup
semantics is faithful; this one keeps at most one entry per key. -/
def mapInsert (l : List (String × String)) (k v : String) : List (String × String) :=
  (k, v) :: l.filter (fun kv => kv.1 != k)

/-- DefaultContainerPort (source constant): default port inside the container. -/
def DefaultContainerPort : Int := 3000

/-- DefaultServingPort (source constant): default port to expose. -/
def DefaultServingPort : Int := 80

/-- DefaultFSGroup (source constant): default fsGroup for the pod security context. -/
def DefaultFSGroup : Int := 100

/-- DefaultWkDir (source constant): default working directory. -/
def DefaultWkDir : String := "/home/theia"

/-- DefaultMountPath (source constant): default PVC mount path. -/
def DefaultMountPath : String := "/home/project"

/-- DefaultImage (source constant): default container image. -/
def DefaultImage : String := "theiaide/theia:latest"

/-- corev1.ContainerPort, the fields the controller sets/reads. -/
structure ContainerPort where
  containerPort : Int
  name : String
  protocol : String
deriving DecidableEq, Repr

/-- corev1.EnvVar. -/
structure EnvVar where
  name : String
  value : String
deriving DecidableEq, Repr

/-- corev1.VolumeMount, the fields the controller sets. -/
structure VolumeMount where
  name : String
  mountPath : String
deriving DecidableEq, Repr

/-- corev1.PodSecurityContext, the field the controller sets. -/
structure PodSecurityContext where
  fsGroup : Option Int
deriving DecidableEq, Repr

/-- corev1.Container, the fields the controller reads or writes.
`ports` is `Option` because the Go code distinguishes a nil slice
(`container.Ports == nil`) from a non-nil one. -/
structure Container where
  image : String
  workingDir : String
  ports : Option (List ContainerPort)
  env : List EnvVar
  volumeMounts : List VolumeMount
deriving DecidableEq, Repr

/-- corev1.PodSpec, the fields the controller reads or writes. -/
structure PodSpec where
  containers : List Container
  securityContext : Option PodSecurityContext
deriving DecidableEq, Repr

/-- metav1.ObjectMeta, the fields the controller reads or writes.
`nspace` is the Go `Namespace` field (renamed because `namespace` is a
Lean keyword); `annots` is the Go `Annotations` map. -/
structure ObjectMeta where
  name : String
  nspace : String
  labels : List (String × String)
  annots : List (String × String)
deriving DecidableEq, Repr

/-- corev1.PersistentVolumeClaimSpec.  Only `StorageClassName` is ever
inspected by the controller (`!= nil`); the rest of the claim spec is
passed through verbatim and therefore not modelled field by field. -/
structure PersistentVolumeClaimSpec where
  storageClassName : Option String
deriving DecidableEq, Repr

/-- corev1.PersistentVolumeClaim as placed into VolumeClaimTemplates. -/
structure PersistentVolumeClaim where
  meta : ObjectMeta
  spec : PersistentVolumeClaimSpec
deriving DecidableEq, Repr

/-- corev1.ContainerStateRunning (payload unused by the controller
beyond presence). -/
structure ContainerStateRunning where
  startedAt : Nat
deriving DecidableEq, Repr

/-- corev1.ContainerStateWaiting, the fields read by getNextCondition. -/
structure ContainerStateWaiting where
  reason : String
  message : String
deriving DecidableEq, Repr

/-- corev1.ContainerStateTerminated, the fields read by getNextCondition. -/
structure ContainerStateTerminated where
  reason : String
  message : String
deriving DecidableEq, Repr

/-- corev1.ContainerState: at most one of the three payloads is populated
in practice, but the type allows any combination (all three are nilable
pointers in Go). -/
structure ContainerState where
  running : Option ContainerStateRunning := none
  waiting : Option ContainerStateWaiting := none
  terminated : Option ContainerStateTerminated := none
deriving DecidableEq, Repr

/-- v1alpha1.TheiaCondition: {Type, LastProbeTime, Reason, Message}.
`condType` is the Go `Type` field; `lastProbeTime` is an abstract clock
reading (metav1.Now() in the source). -/
structure TheiaCondition where
  condType : String
  lastProbeTime : Nat
  reason : String
  message : String
deriving DecidableEq, Repr

/-- v1alpha1.TheiaStatus: readyReplicas, last observed container state,
and the condition history (newest first). -/
structure TheiaStatus where
  readyReplicas : Int
  containerState : ContainerState
  conditions : List TheiaCondition
deriving DecidableEq, Repr

/-- v1alpha1 Theia spec template: the pod-template-like part of the spec.
`metaAnnots` is `Spec.Template.ObjectMeta.Annotations` (the only template
metadata the controller reads). -/
structure TheiaTemplate where
  metaAnnots : List (String × String)
  spec : PodSpec
  persistentVolumeClaimSpec : PersistentVolumeClaimSpec
deriving DecidableEq, Repr

/-- v1alpha1.TheiaSpec. -/
structure TheiaSpec where
  template : TheiaTemplate
deriving DecidableEq, Repr

/-- v1alpha1.Theia: the parent Instance resource. -/
structure Theia where
  meta : ObjectMeta
  spec : TheiaSpec
  status : TheiaStatus
deriving DecidableEq, Repr

/-- metav1.LabelSelector, as used by the controller. -/
structure LabelSelector where
  matchLabels : List (String × String)
deriving DecidableEq, Repr

/-- corev1.PodTemplateSpec, the fields the controller sets. -/
structure PodTemplateSpec where
  labels : List (String × String)
  annots : List (String × String)
  spec : PodSpec
deriving DecidableEq, Repr

/-- appsv1.StatefulSetSpec, the fields the controller sets or reads. -/
structure StatefulSetSpec where
  replicas : Int
  selector : LabelSelector
  template : PodTemplateSpec
  volumeClaimTemplates : List PersistentVolumeClaim
deriving DecidableEq, Repr

/-- appsv1.StatefulSetStatus, the field the controller reads. -/
structure StatefulSetStatus where
  readyReplicas : Int
deriving DecidableEq, Repr

/-- appsv1.StatefulSet. -/
structure StatefulSet where
  meta : ObjectMeta
  spec : StatefulSetSpec
  status : StatefulSetStatus
deriving DecidableEq, Repr

/-- Zero value `appsv1.StatefulSet{}` (what `foundStateful` holds when
the Get returned NotFound and the object was just created). -/
def emptyStatefulSet : StatefulSet :=
  { meta := { name := "", nspace := "", labels := [], annots := [] }
    spec := { replicas := 0, selector := { matchLabels := [] }
              template := { labels := [], annots := []
                            spec := { containers := [], securityContext := none } }
              volumeClaimTemplates := [] }
    status := { readyReplicas := 0 } }

/-- corev1.ServicePort, the fields the controller sets. -/
structure ServicePort where
  name : String
  port : Int
  targetPort : Int
  protocol : String
deriving DecidableEq, Repr

/-- corev1.ServiceSpec, the fields the controller sets. -/
structure ServiceSpec where
  svcType : String
  selector : List (String × String)
  ports : List ServicePort
deriving DecidableEq, Repr

/-- corev1.Service. -/
structure Service where
  meta : ObjectMeta
  spec : ServiceSpec
deriving DecidableEq, Repr

/-- The Istio VirtualService the controller generates, flattened to the
fields generateVirtualService actually writes into the unstructured
object. -/
structure VirtualService where
  name : String
  nspace : String
  hosts : List String
  gateways : List String
  matchUriPre : String
  rewriteUri : String
  destHost : String
  destPortNumber : Int
  timeout : String
deriving DecidableEq, Repr

/-- corev1.ContainerStatus, the field the controller reads. -/
structure ContainerStatus where
  state : ContainerState
deriving DecidableEq, Repr

/-- corev1.Pod, the fields the controller reads: its labels (for parent
resolution) and its container statuses. -/
structure Pod where
  labels : List (String × String)
  containerStatuses : List ContainerStatus
deriving DecidableEq, Repr

/-- Modelled from the spec: the stop-directive annotation key used by
`pkg/culler` (the culler package is not among the sources; the spec calls
it "an explicit marker causing an Instance to be scaled to zero replicas",
carried in the Instance's annotations). -/
def StopAnnotationKey : String := "kubeflow-resource-stopped"

/-- Modelled from the spec: `culler.StopAnnotationIsSet` — whether the
stop directive annotation is present on the metadata. -/
def stopAnnotationIsSet (m : ObjectMeta) : Bool :=
  (lookupKV m.annots StopAnnotationKey).isSome

/-- Modelled from the spec: `culler.SetStopAnnotation` — sets the stop
directive annotation on the metadata (the value's exact content is
irrelevant to every decision the controller makes; only presence counts). -/
def setStopAnnot (m : ObjectMeta) : ObjectMeta :=
  { m with annots := mapInsert m.annots StopAnnotationKey "true" }

/-- Modelled from the spec: `culler.TheiaNeedsCulling` — true when no
stop directive is set and the externally supplied idle predicate reports
the instance idle ("Active → PendingCull when the idle predicate reports
the instance is idle and no stop directive is yet set").  The idle
predicate itself (elapsed time vs. threshold) is passed in as `idle`. -/
def theiaNeedsCulling (m : ObjectMeta) (idle : Bool) : Bool :=
  !stopAnnotationIsSet m && idle

/-- Static configuration consumed by the pass: USE_ISTIO, ADD_FSGROUP
(absent-or-"true" collapsed to a Bool), ISTIO_GATEWAY, and
`culler.GetRequeueTime` (the configured requeue interval, a collaborator
configuration value; the culler package is not among the sources). -/
structure Config where
  useIstio : Bool
  addFsGroup : Bool
  istioGateway : String
  requeueTime : Nat
deriving DecidableEq, Repr

/-- generateStatefulSet (source lines 302-396).  Returns `none` where the
Go code panics: `podSpec.Containers[0]` is an index-out-of-range when the
spec has no containers.  Because Go's `ss.Spec.Template.Spec =
instance.Spec.Template.Spec` copies only the slice headers, the
`container := &podSpec.Containers[0]` writes (image/workingDir/ports/env/
volumeMounts defaulting and appends) go through to the in-memory
instance's own first container; the function therefore returns both the
generated StatefulSet and the instance as mutated in memory.  The
security-context assignment writes a struct field of the copied PodSpec
and does NOT alias back into the instance. -/
def generateStatefulSet (cfg : Config) (inst : Theia) : Option (StatefulSet × Theia) :=
  let replicas : Int := if stopAnnotationIsSet inst.meta then 0 else 1
  let volumeClaimTemplates : List PersistentVolumeClaim :=
    match inst.spec.template.persistentVolumeClaimSpec.storageClassName with
    | some _ =>
        [{ meta := { name := "theia", nspace := "", labels := [], annots := [] }
           spec := inst.spec.template.persistentVolumeClaimSpec }]
    | none => []
  match inst.spec.template.spec.containers with
  | [] => none
  | c0 :: rest =>
    let c1 : Container :=
      { c0 with
        image := if c0.image = "" then DefaultImage else c0.image
        workingDir := if c0.workingDir = "" then DefaultWkDir else c0.workingDir
        ports :=
          match c0.ports with
          | none => some [{ containerPort := DefaultContainerPort
                            name := "theia-port", protocol := "TCP" }]
          | some ps => some ps }
    let c2 : Container :=
      { c1 with
        env := c1.env ++
          [ { name := "THEIA_NAME", value := inst.meta.name }
          , { name := "THEIA_PREFIX"
              value := "/theia/" ++ inst.meta.nspace ++ "/" ++ inst.meta.name }
          , { name := "NAMESPACE", value := inst.meta.nspace } ]
        volumeMounts := c1.volumeMounts ++
          [{ name := "theia", mountPath := DefaultMountPath }] }
    let baseLabels : List (String × String) :=
      [ ("statefulset", inst.meta.name)
      , ("theia-name", inst.meta.name)
      , ("app", "theia.e2.fyi")
      , ("version", "v1alpha1") ]
    let tmplLabels : List (String × String) :=
      inst.meta.labels.foldl (fun acc kv => mapInsert acc kv.1 kv.2) baseLabels
    let ssSecurityContext : Option PodSecurityContext :=
      if cfg.addFsGroup && inst.spec.template.spec.securityContext.isNone then
        some { fsGroup := some DefaultFSGroup }
      else
        inst.spec.template.spec.securityContext
    let ss : StatefulSet :=
      { meta := { name := inst.meta.name, nspace := inst.meta.nspace
                  labels := [], annots := [] }
        spec :=
          { replicas := replicas
            selector := { matchLabels := [("statefulset", inst.meta.name)] }
            template :=
              { labels := tmplLabels
                annots := inst.spec.template.metaAnnots
                spec := { containers := c2 :: rest
                          securityContext := ssSecurityContext } }
            volumeClaimTemplates := volumeClaimTemplates }
        status := { readyReplicas := 0 } }
    let instMutated : Theia :=
      { inst with
        spec :=
          { inst.spec with
            template :=
              { inst.spec.template with
                spec := { inst.spec.template.spec with containers := c2 :: rest } } } }
    some (ss, instMutated)

/-- generateService (source lines 398-427).  Returns `none` where the Go
code panics: `Containers[0]` with no containers, and `containerPorts[0]`
when the ports slice is non-nil but empty. -/
def generateService (inst : Theia) : Option Service :=
  match inst.spec.template.spec.containers with
  | [] => none
  | c0 :: _ =>
    let portOpt : Option Int :=
      match c0.ports with
      | none => some DefaultContainerPort
      | some [] => none
      | some (p :: _) => some p.containerPort
    match portOpt with
    | none => none
    | some port =>
      some
        { meta := { name := inst.meta.name, nspace := inst.meta.nspace
                    labels := inst.meta.labels, annots := inst.meta.annots }
          spec :=
            { svcType := "ClusterIP"
              selector := [("statefulset", inst.meta.name)]
              ports :=
                [ { name := "http-" ++ inst.meta.name
                    port := DefaultServingPort
                    targetPort := port
                    protocol := "TCP" } ] } }

/-- virtualServiceName (source lines 429-431). -/
def virtualServiceName (kfName : String) (nspace : String) : String :=
  "v1alpha1-" ++ nspace ++ "-" ++ kfName

/-- generateVirtualService (source lines 433-490), flattened to the
fields written into the unstructured object.  The Go error returns fire
only when SetNested* meets a non-map intermediate value, which cannot
happen on a freshly created object, so the embedding is total. -/
def generateVirtualService (cfg : Config) (inst : Theia) : VirtualService :=
  let name := inst.meta.name
  let nspace := inst.meta.nspace
  { name := virtualServiceName name nspace
    nspace := nspace
    hosts := ["*"]
    gateways := [if cfg.istioGateway = "" then "kubeflow/kubeflow-gateway" else cfg.istioGateway]
    matchUriPre := "/theia/" ++ nspace ++ "/" ++ name ++ "/"
    rewriteUri := "/"
    destHost := name ++ "." ++ nspace ++ ".svc.cluster.local"
    destPortNumber := DefaultServingPort
    timeout := "300s" }

/-- Modelled from the spec: `reconcilehelper.CopyStatefulSetFields` (the
diff/upsert helper lives in an external module, not among the sources).
Per the spec, it computes whether the managed fields — the ones the
generator controls: replica count, pod template, labels — differ between
desired and observed; it copies only those fields onto the observed
object, preserving all unmanaged fields (cluster-assigned metadata,
status), and reports whether an update is needed. -/
def copyStatefulSetFields (desired observed : StatefulSet) :
    Bool × StatefulSet :=
  let changed : Bool :=
    decide (¬ (desired.spec.replicas = observed.spec.replicas ∧
               desired.spec.template = observed.spec.template ∧
               desired.meta.labels = observed.meta.labels))
  (changed,
   { observed with
     meta := { observed.meta with labels := desired.meta.labels }
     spec := { observed.spec with
               replicas := desired.spec.replicas
               template := desired.spec.template } })

/-- Modelled from the spec: `reconcilehelper.CopyServiceFields` — same
managed-field copy for Services: selector, ports, labels; everything
else on the observed object is preserved. -/
def copyServiceFields (desired observed : Service) : Bool × Service :=
  let changed : Bool :=
    decide (¬ (desired.spec.selector = observed.spec.selector ∧
               desired.spec.ports = observed.spec.ports ∧
               desired.meta.labels = observed.meta.labels))
  (changed,
   { observed with
     meta := { observed.meta with labels := desired.meta.labels }
     spec := { observed.spec with
               selector := desired.spec.selector
               ports := desired.spec.ports } })

/-- Modelled from the spec: `reconcilehelper.CopyVirtualService` — the
managed fields of the route object are exactly the ones the generator
writes, so the comparison is against the whole generated descriptor. -/
def copyVirtualService (desired observed : VirtualService) :
    Bool × VirtualService :=
  (decide (¬ desired = observed), desired)

/-- getNextCondition (source lines 276-300).  Classifies a container
state into a condition record.  The Go `else` branch dereferences
`cs.Terminated` without a nil check, so a state with none of the three
payloads populated panics — modelled as `none`.  Note the source sets
BOTH reason and message from `cs.Terminated.Reason` in the Terminated
branch.  `now` stands for `metav1.Now()`. -/
def getNextCondition (now : Nat) (cs : ContainerState) :
    Option TheiaCondition :=
  if cs.running.isSome then
    some { condType := "Running", lastProbeTime := now, reason := "", message := "" }
  else
    match cs.waiting with
    | some w =>
        some { condType := "Waiting", lastProbeTime := now
               reason := w.reason, message := w.message }
    | none =>
        match cs.terminated with
        | some t =>
            some { condType := "Terminated", lastProbeTime := now
                   reason := t.reason, message := t.reason }
        | none => none

/-- Condition-history append step (source lines 239-245, inlined in
Reconcile): prepend the new condition only when the history is empty or
its head differs in type, reason or message. -/
def appendCondition (oldConditions : List TheiaCondition)
    (newCondition : TheiaCondition) : List TheiaCondition :=
  match oldConditions with
  | [] => newCondition :: oldConditions
  | headC :: _ =>
    if headC.condType ≠ newCondition.condType ∨
       headC.reason ≠ newCondition.reason ∨
       headC.message ≠ newCondition.message then
      newCondition :: oldConditions
    else
      oldConditions

/-- Controller result: the Go ctrl.Result, reduced to the only field the
controller ever sets (RequeueAfter). -/
structure CtrlResult where
  requeueAfter : Option Nat
deriving DecidableEq, Repr

/-- Cluster writes and metric increments issued by one reconcile pass, in
order.  `statusUpdate` is `r.Status().Update(ctx, instance)` (writes only
the status sub-object); `instanceUpdate` is `r.Update(ctx, instance)`
(writes the whole main resource, metadata and spec included). -/
inductive Action where
  | createStatefulSet : StatefulSet → Action
  | updateStatefulSet : StatefulSet → Action
  | createService : Service → Action
  | updateService : Service → Action
  | createVirtualService : VirtualService → Action
  | updateVirtualService : VirtualService → Action
  | statusUpdate : Theia → Action
  | instanceUpdate : Theia → Action
  | theiaCreationInc : Action
  | theiaCullingCountInc : Action
deriving DecidableEq, Repr

/-- Observed cluster state the pass reads: the child objects looked up by
namespaced name (`none` = the Get returned NotFound) and the instance's
first pod `<name>-0`. -/
structure Cluster where
  foundStateful : Option StatefulSet
  foundService : Option Service
  foundVirtual : Option VirtualService
  pod : Option Pod
deriving DecidableEq, Repr

/-- StatefulSet upsert step (source lines 143-169): NotFound → creation
metric + create, the observed object staying the Go zero value; found →
copy managed fields and update only when they differed.  Returns the
actions and the observed StatefulSet as it stands after the step (the
copy helper mutates it in place in Go; its status is preserved either
way). -/
def upsertStatefulSet (ss : StatefulSet) (found : Option StatefulSet) :
    List Action × StatefulSet :=
  match found with
  | none => ([Action.theiaCreationInc, Action.createStatefulSet ss], emptyStatefulSet)
  | some fs =>
    let cp := copyStatefulSetFields ss fs
    (if cp.1 then [Action.updateStatefulSet cp.2] else [], cp.2)

/-- Service upsert step (source lines 176-200): NotFound → create;
found → copy managed fields and update only when they differed. -/
def upsertService (svc : Service) (found : Option Service) : List Action :=
  match found with
  | none => [Action.createService svc]
  | some fsvc =>
    let cp := copyServiceFields svc fsvc
    if cp.1 then [Action.updateService cp.2] else []

/-- VirtualService upsert step (reconcileVirtualService, source lines
492-527), run only when USE_ISTIO is "true". -/
def upsertVirtualService (cfg : Config) (inst : Theia)
    (found : Option VirtualService) : List Action :=
  if cfg.useIstio then
    let vs := generateVirtualService cfg inst
    match found with
    | none => [Action.createVirtualService vs]
    | some fv =>
      let cp := copyVirtualService vs fv
      if cp.1 then [Action.updateVirtualService cp.2] else []
  else []

/-- ReadyReplicas sync step (source lines 210-218): when the observed
StatefulSet's readyReplicas differs from the one recorded on the
Instance, overwrite it and issue a status update.  Runs before, and
independently of, the pod lookup. -/
def syncReadyReplicas (observed : StatefulSet) (inst : Theia) :
    List Action × Theia :=
  if observed.status.readyReplicas ≠ inst.status.readyReplicas then
    let i : Theia :=
      { inst with
        status := { inst.status with
                    readyReplicas := observed.status.readyReplicas } }
    ([Action.statusUpdate i], i)
  else
    ([], inst)

/-- Pod status projection step (source lines 220-251): when the pod
exists and reports a container status whose state differs from the
recorded one, record the new state, append a condition (dedup against the
head) and issue a status update.  `none` models the getNextCondition
panic propagating.  Returns (actions, updated instance, podFound). -/
def projectPodStatus (now : Nat) (inst : Theia) (pod? : Option Pod) :
    Option (List Action × Theia × Bool) :=
  match pod? with
  | none => some ([], inst, false)
  | some pod =>
    match pod.containerStatuses with
    | [] => some ([], inst, true)
    | cst :: _ =>
      if cst.state = inst.status.containerState then
        some ([], inst, true)
      else
        match getNextCondition now cst.state with
        | none => none
        | some newCondition =>
          let conds := appendCondition inst.status.conditions newCondition
          let i : Theia :=
            { inst with
              status := { inst.status with
                          containerState := cst.state
                          conditions := conds } }
          some ([Action.statusUpdate i], i, true)

/-- Culling step (source lines 253-273): pod found and the culler says
cull → set the stop annotation, bump the culling metric, write the whole
Instance; pod found, directive absent, not idle → requeue after the
configured interval; otherwise no action and no requeue.  Returns
(actions, result, final instance). -/
def cullStep (cfg : Config) (idle : Bool) (podFound : Bool) (inst : Theia) :
    List Action × CtrlResult × Theia :=
  if podFound && theiaNeedsCulling inst.meta idle then
    let i : Theia := { inst with meta := setStopAnnot inst.meta }
    ([Action.theiaCullingCountInc, Action.instanceUpdate i],
     { requeueAfter := none }, i)
  else if podFound && !stopAnnotationIsSet inst.meta then
    ([], { requeueAfter := some cfg.requeueTime }, inst)
  else
    ([], { requeueAfter := none }, inst)

/-- Reconcile, the sections after the event-relay prefix (source lines
130-273): generate + upsert the StatefulSet, generate + upsert the
Service, optionally reconcile the VirtualService, sync readyReplicas from
the observed StatefulSet, project the pod's container state, then run the
culling decision.  `idle` is the culler's idle predicate evaluated on
this instance, `now` the clock.  `none` models a Go panic (empty
containers in generation, or the getNextCondition nil dereference).
Returns the actions issued in order, the ctrl.Result, and the final
in-memory instance. -/
def reconcileInstance (cfg : Config) (inst0 : Theia) (cl : Cluster)
    (idle : Bool) (now : Nat) :
    Option (List Action × CtrlResult × Theia) :=
  match generateStatefulSet cfg inst0 with
  | none => none
  | some gss =>
    let ss := gss.1
    let inst1 := gss.2
    let up1 := upsertStatefulSet ss cl.foundStateful
    match generateService inst1 with
    | none => none
    | some service =>
      let svcActs := upsertService service cl.foundService
      let vsActs := upsertVirtualService cfg inst1 cl.foundVirtual
      let rr := syncReadyReplicas up1.2 inst1
      match projectPodStatus now rr.2 cl.pod with
      | none => none
      | some ps =>
        let cull := cullStep cfg idle ps.2.2 ps.2.1
        some (up1.1 ++ svcActs ++ vsActs ++ rr.1 ++ ps.1 ++ cull.1,
              cull.2.1, cull.2.2)

/-- Which actions are create/update writes on child objects (the
StatefulSet, Service or VirtualService). -/
def isChildWrite : Action → Bool
  | Action.createStatefulSet _ => true
  | Action.updateStatefulSet _ => true
  | Action.createService _ => true
  | Action.updateService _ => true
  | Action.createVirtualService _ => true
  | Action.updateVirtualService _ => true
  | _ => false

/-- Which actions belong to the culling machine (the stop-directive write
and its metric). -/
def isCullingAction : Action → Bool
  | Action.instanceUpdate _ => true
  | Action.theiaCullingCountInc => true
  | _ => false

/-- corev1.ObjectReference, the fields the resolver reads. -/
structure ObjectReference where
  kind : String
  name : String
  nspace : String
deriving DecidableEq, Repr

/-- corev1.Event, the fields the relay reads. -/
structure Event where
  involvedObject : ObjectReference
  etype : String
  reason : String
  message : String
deriving DecidableEq, Repr

/-- Resolution failures of theiaNameFromInvolvedObject: the pod Get
errored, or the object isn't related to a Theia (wrong kind, or a pod
without the parent-name label). -/
inductive ResolveErr where
  | getPodErr : ResolveErr
  | notRelated : ResolveErr
deriving DecidableEq, Repr

/-- theiaNameFromInvolvedObject (source lines 533-557).  `getPod` stands
for the cluster client's pod lookup (namespace, name). -/
def theiaNameFromInvolvedObject (getPod : String → String → Option Pod)
    (obj : ObjectReference) : Except ResolveErr String :=
  if obj.kind = "StatefulSet" then
    Except.ok obj.name
  else if obj.kind = "Pod" then
    match getPod obj.nspace obj.name with
    | none => Except.error ResolveErr.getPodErr
    | some pod =>
      match lookupKV pod.labels "theia-name" with
      | some nbName => Except.ok nbName
      | none => Except.error ResolveErr.notRelated
  else
    Except.error ResolveErr.notRelated

/-- isStsOrPodEvent (source lines 529-531). -/
def isStsOrPodEvent (e : Event) : Bool :=
  e.involvedObject.kind == "Pod" || e.involvedObject.kind == "StatefulSet"

/-- Outcome of the event-relay prefix of Reconcile (source lines
108-128). -/
inductive EventOutcome where
  /-- an event was found, resolved, its parent fetched, and one event was
  re-emitted on the parent; the pass continues -/
  | relayed : String → EventOutcome
  /-- resolution failed: Reconcile returns the non-nil error (the request
  is retried by the runtime with backoff) -/
  | errorReturn : EventOutcome
  /-- resolution succeeded but the parent Theia was NotFound: the error is
  swallowed by ignoreNotFound and the pass ends with a nil error -/
  | droppedNotFound : EventOutcome
  /-- no Event object exists under the request's name: the pass continues
  without relaying -/
  | noEvent : EventOutcome
deriving DecidableEq, Repr

/-- Event-relay prefix of Reconcile (source lines 108-128).  `ev` is the
result of getting an Event at the request's namespaced name; `theiaFound`
stands for the Get of the resolved parent Theia. -/
def reconcileEventStep (getPod : String → String → Option Pod)
    (theiaFound : String → Bool) (ev : Option Event) : EventOutcome :=
  match ev with
  | none => EventOutcome.noEvent
  | some e =>
    match theiaNameFromInvolvedObject getPod e.involvedObject with
    | Except.error _ => EventOutcome.errorReturn
    | Except.ok theiaName =>
      if theiaFound theiaName then EventOutcome.relayed theiaName
      else EventOutcome.droppedNotFound

/-- Watch-predicate CreateFunc for Event sources (source lines 636-644):
an event whose involved object cannot be resolved, whose kind is not Pod
or StatefulSet, or whose parent does not exist, is filtered out (no
reconcile request is enqueued for it).  `theiaExists` stands for
theiaNameExists (source lines 559-565), abstracting the client Get. -/
def eventCreatePred (getPod : String → String → Option Pod)
    (theiaExists : String → String → Bool) (e : Event) (nspace : String) :
    Bool :=
  match theiaNameFromInvolvedObject getPod e.involvedObject with
  | Except.error _ => false
  | Except.ok nbName => isStsOrPodEvent e && theiaExists nbName nspace

/-- Modelled from the spec: validity of an Instance spec (the
api/v1alpha1 schema definitions are not among the sources; the spec calls
the spec "pod-template-like").  A valid spec carries at least one
container, and a ports list that is present is nonempty. -/
def validTheia (t : Theia) : Bool :=
  match t.spec.template.spec.containers with
  | [] => false
  | c0 :: _ => !(c0.ports == some ([] : List ContainerPort))

/-!
Concrete fixtures used by witnesses and counterexamples.
-/

/-- Sample container with every defaultable field unset. -/
def sampleContainer : Container :=
  { image := "", workingDir := "", ports := none, env := [], volumeMounts := [] }

/-- Sample Instance ns/foo with one default-everything container, no
labels, no annotations, empty status. -/
def sampleTheia : Theia :=
  { meta := { name := "foo", nspace := "ns", labels := [], annots := [] }
    spec := { template := { metaAnnots := []
                            spec := { containers := [sampleContainer]
                                      securityContext := none }
                            persistentVolumeClaimSpec := { storageClassName := none } } }
    status := { readyReplicas := 0, containerState := {}, conditions := [] } }

/-- Sample configuration: Istio off, fsGroup injection on, 60s requeue. -/
def sampleCfg : Config :=
  { useIstio := false, addFsGroup := true, istioGateway := "", requeueTime := 60 }

/-- Sample pod with no container statuses. -/
def samplePod : Pod := { labels := [], containerStatuses := [] }

/-- The StatefulSet generated for the sample Instance. -/
def sampleSS : StatefulSet :=
  ((generateStatefulSet sampleCfg sampleTheia).map Prod.fst).getD emptyStatefulSet

/-- The Service generated for the sample Instance (after the in-memory
mutation generateStatefulSet performs, as in the source's call order). -/
def sampleSvc : Service :=
  (((generateStatefulSet sampleCfg sampleTheia).map Prod.snd).bind generateService).getD
    { meta := sampleTheia.meta
      spec := { svcType := "", selector := [], ports := [] } }

/-!
Helper lemmas shared by the claim proofs.
-/

/-- generateStatefulSet leaves the returned in-memory instance's metadata
and status untouched (only the spec's containers are mutated through the
shared slice). -/
theorem generateStatefulSet_meta_status (cfg : Config) (inst : Theia)
    (ss : StatefulSet) (inst1 : Theia)
    (h : generateStatefulSet cfg inst = some (ss, inst1)) :
    inst1.meta = inst.meta ∧ inst1.status = inst.status := by
  unfold generateStatefulSet at h
  cases hc : inst.spec.template.spec.containers with
  | nil => rw [hc] at h; exact absurd h (by simp)
  | cons c0 rest =>
    rw [hc] at h
    simp only [Option.some.injEq, Prod.mk.injEq] at h
    rw [← h.2]
    exact ⟨rfl, rfl⟩

/-- syncReadyReplicas leaves metadata, container state and conditions
untouched. -/
theorem syncReadyReplicas_frame (observed : StatefulSet) (inst : Theia) :
    (syncReadyReplicas observed inst).2.meta = inst.meta ∧
    (syncReadyReplicas observed inst).2.status.containerState =
      inst.status.containerState ∧
    (syncReadyReplicas observed inst).2.status.conditions =
      inst.status.conditions ∧
    (syncReadyReplicas observed inst).2.spec = inst.spec := by
  unfold syncReadyReplicas
  split <;> simp

/-- projectPodStatus with no pod is a no-op reporting podFound = false. -/
theorem projectPodStatus_none (now : Nat) (inst : Theia) :
    projectPodStatus now inst none = some ([], inst, false) := rfl

/-- projectPodStatus leaves metadata, spec and readyReplicas untouched. -/
theorem projectPodStatus_frame (now : Nat) (inst : Theia) (pod? : Option Pod)
    (r : List Action × Theia × Bool) (h : projectPodStatus now inst pod? = some r) :
    r.2.1.meta = inst.meta ∧ r.2.1.spec = inst.spec ∧
    r.2.1.status.readyReplicas = inst.status.readyReplicas := by
  cases pod? with
  | none =>
    rw [projectPodStatus_none] at h
    simp only [Option.some.injEq] at h; rw [← h]; exact ⟨rfl, rfl, rfl⟩
  | some pod =>
    simp only [projectPodStatus] at h
    split at h
    · simp only [Option.some.injEq] at h; rw [← h]; exact ⟨rfl, rfl, rfl⟩
    · split at h
      · simp only [Option.some.injEq] at h; rw [← h]; exact ⟨rfl, rfl, rfl⟩
      · split at h
        · simp at h
        · simp only [Option.some.injEq] at h; rw [← h]; exact ⟨rfl, rfl, rfl⟩

/-- Unfolded shape of a reconcile pass, given the two generation
steps. -/
theorem reconcileInstance_eq_map (cfg : Config) (inst : Theia) (cl : Cluster)
    (idle : Bool) (now : Nat) (ss : StatefulSet) (inst1 : Theia) (svc : Service)
    (hgen : generateStatefulSet cfg inst = some (ss, inst1))
    (hsvc : generateService inst1 = some svc) :
    reconcileInstance cfg inst cl idle now =
      (projectPodStatus now
          (syncReadyReplicas (upsertStatefulSet ss cl.foundStateful).2 inst1).2
          cl.pod).map
        (fun ps =>
          ((upsertStatefulSet ss cl.foundStateful).1 ++
             upsertService svc cl.foundService ++
             upsertVirtualService cfg inst1 cl.foundVirtual ++
             (syncReadyReplicas (upsertStatefulSet ss cl.foundStateful).2 inst1).1 ++
             ps.1 ++ (cullStep cfg idle ps.2.2 ps.2.1).1,
           (cullStep cfg idle ps.2.2 ps.2.1).2.1,
           (cullStep cfg idle ps.2.2 ps.2.1).2.2)) := by
  unfold reconcileInstance
  rw [hgen]
  simp only
  rw [hsvc]
  simp only
  cases projectPodStatus now
      (syncReadyReplicas (upsertStatefulSet ss cl.foundStateful).2 inst1).2
      cl.pod <;> rfl

/-- Inversion of a successful reconcile pass: recover the intermediate
generation and projection results and the exact composition of the
output. -/
theorem reconcileInstance_inv (cfg : Config) (inst : Theia) (cl : Cluster)
    (idle : Bool) (now : Nat) (r : List Action × CtrlResult × Theia)
    (hr : reconcileInstance cfg inst cl idle now = some r) :
    ∃ ss inst1 svc ps,
      generateStatefulSet cfg inst = some (ss, inst1) ∧
      generateService inst1 = some svc ∧
      projectPodStatus now
          (syncReadyReplicas (upsertStatefulSet ss cl.foundStateful).2 inst1).2
          cl.pod = some ps ∧
      r = ((upsertStatefulSet ss cl.foundStateful).1 ++
             upsertService svc cl.foundService ++
             upsertVirtualService cfg inst1 cl.foundVirtual ++
             (syncReadyReplicas (upsertStatefulSet ss cl.foundStateful).2 inst1).1 ++
             ps.1 ++ (cullStep cfg idle ps.2.2 ps.2.1).1,
           (cullStep cfg idle ps.2.2 ps.2.1).2.1,
           (cullStep cfg idle ps.2.2 ps.2.1).2.2) := by
  cases hgen : generateStatefulSet cfg inst with
  | none => rw [reconcileInstance, hgen] at hr; simp at hr
  | some gss =>
    obtain ⟨ssv, instv⟩ := gss
    cases hsvc : generateService instv with
    | none =>
      rw [reconcileInstance, hgen] at hr
      simp only at hr
      rw [hsvc] at hr
      simp at hr
    | some svc =>
      rw [reconcileInstance_eq_map cfg inst cl idle now ssv instv svc hgen hsvc] at hr
      cases hps : projectPodStatus now
          (syncReadyReplicas (upsertStatefulSet ssv cl.foundStateful).2 instv).2
          cl.pod with
      | none => rw [hps] at hr; simp at hr
      | some ps =>
        rw [hps] at hr
        rw [Option.map] at hr
        simp only [Option.some.injEq] at hr
        exact ⟨ssv, instv, svc, ps, rfl, hsvc, hps, hr.symm⟩

/-- Culling step in the cull case: pod found, directive absent, idle. -/
theorem cullStep_cull (cfg : Config) (inst : Theia)
    (h1 : stopAnnotationIsSet inst.meta = false) :
    cullStep cfg true true inst =
      ([Action.theiaCullingCountInc,
        Action.instanceUpdate { inst with meta := setStopAnnot inst.meta }],
       { requeueAfter := none },
       { inst with meta := setStopAnnot inst.meta }) := by
  simp [cullStep, theiaNeedsCulling, h1]

/-- Culling step in the already-culled case: directive present means
both culler branches are skipped, whatever the idle predicate says. -/
theorem cullStep_culled (cfg : Config) (idle : Bool) (inst : Theia)
    (h1 : stopAnnotationIsSet inst.meta = true) :
    cullStep cfg idle true inst = ([], { requeueAfter := none }, inst) := by
  simp [cullStep, theiaNeedsCulling, h1]

/-- Culling step in the not-yet-idle case: requeue after the configured
interval, no state change. -/
theorem cullStep_requeue (cfg : Config) (inst : Theia)
    (h1 : stopAnnotationIsSet inst.meta = false) :
    cullStep cfg false true inst =
      ([], { requeueAfter := some cfg.requeueTime }, inst) := by
  simp [cullStep, theiaNeedsCulling, h1]

/-- Culling step when the pod was not found: nothing happens and no
requeue is scheduled. -/
theorem cullStep_noPod (cfg : Config) (idle : Bool) (inst : Theia) :
    cullStep cfg idle false inst = ([], { requeueAfter := none }, inst) := by
  simp [cullStep]

/-- Looking up the key just inserted finds the inserted value. -/
theorem lookupKV_mapInsert (l : List (String × String)) (k v : String) :
    lookupKV (mapInsert l k v) k = some v := by
  simp [lookupKV, mapInsert]

/-- Setting the stop annotation makes the stop directive set. -/
theorem stopAnnotationIsSet_setStopAnnot (m : ObjectMeta) :
    stopAnnotationIsSet (setStopAnnot m) = true := by
  simp [stopAnnotationIsSet, setStopAnnot, lookupKV_mapInsert]

/-- projectPodStatus reports the pod as found when it exists. -/
theorem projectPodStatus_podFound (now : Nat) (inst : Theia) (pod : Pod)
    (r : List Action × Theia × Bool)
    (h : projectPodStatus now inst (some pod) = some r) : r.2.2 = true := by
  simp only [projectPodStatus] at h
  split at h
  · simp only [Option.some.injEq] at h; rw [← h]
  · split at h
    · simp only [Option.some.injEq] at h; rw [← h]
    · split at h
      · simp at h
      · simp only [Option.some.injEq] at h; rw [← h]

/-- The replica count of a generated StatefulSet is 0 exactly when the
stop directive is set, 1 otherwise. -/
theorem generateStatefulSet_replicas (cfg : Config) (inst : Theia)
    (ss : StatefulSet) (inst1 : Theia)
    (h : generateStatefulSet cfg inst = some (ss, inst1)) :
    ss.spec.replicas = if stopAnnotationIsSet inst.meta then 0 else 1 := by
  unfold generateStatefulSet at h
  cases hc : inst.spec.template.spec.containers with
  | nil => rw [hc] at h; exact absurd h (by simp)
  | cons c0 rest =>
    rw [hc] at h
    simp only [Option.some.injEq, Prod.mk.injEq] at h
    rw [← h.1]

/-- The StatefulSet-upsert actions contain no culling action. -/
theorem upsertStatefulSet_no_cullActs (ss : StatefulSet)
    (found : Option StatefulSet) :
    ((upsertStatefulSet ss found).1).countP isCullingAction = 0 := by
  unfold upsertStatefulSet
  cases found with
  | none => rfl
  | some fs => dsimp only; split <;> rfl

/-- The Service-upsert actions contain no culling action. -/
theorem upsertService_no_cullActs (svc : Service) (found : Option Service) :
    (upsertService svc found).countP isCullingAction = 0 := by
  unfold upsertService
  cases found with
  | none => rfl
  | some fsvc => dsimp only; split <;> rfl

/-- The VirtualService-upsert actions contain no culling action. -/
theorem upsertVirtualService_no_cullActs (cfg : Config) (inst : Theia)
    (found : Option VirtualService) :
    (upsertVirtualService cfg inst found).countP isCullingAction = 0 := by
  unfold upsertVirtualService
  split
  · cases found with
    | none => rfl
    | some fv => dsimp only; split <;> rfl
  · rfl

/-- The readyReplicas sync issues no culling action. -/
theorem syncReadyReplicas_no_cullActs (observed : StatefulSet) (inst : Theia) :
    ((syncReadyReplicas observed inst).1).countP isCullingAction = 0 := by
  unfold syncReadyReplicas
  split <;> rfl

/-- The pod-status projection issues no culling action. -/
theorem projectPodStatus_no_cullActs (now : Nat) (inst : Theia)
    (pod? : Option Pod) (r : List Action × Theia × Bool)
    (h : projectPodStatus now inst pod? = some r) :
    r.1.countP isCullingAction = 0 := by
  cases pod? with
  | none =>
    rw [projectPodStatus_none] at h
    simp only [Option.some.injEq] at h; rw [← h]; rfl
  | some pod =>
    simp only [projectPodStatus] at h
    split at h
    · simp only [Option.some.injEq] at h; rw [← h]; rfl
    · split at h
      · simp only [Option.some.injEq] at h; rw [← h]; rfl
      · split at h
        · simp at h
        · simp only [Option.some.injEq] at h; rw [← h]; rfl

/-- The readyReplicas sync issues no child-object write. -/
theorem syncReadyReplicas_no_childWrites (observed : StatefulSet) (inst : Theia) :
    ((syncReadyReplicas observed inst).1).countP isChildWrite = 0 := by
  unfold syncReadyReplicas
  split <;> rfl

/-- The pod-status projection issues no child-object write. -/
theorem projectPodStatus_no_childWrites (now : Nat) (inst : Theia)
    (pod? : Option Pod) (r : List Action × Theia × Bool)
    (h : projectPodStatus now inst pod? = some r) :
    r.1.countP isChildWrite = 0 := by
  cases pod? with
  | none =>
    rw [projectPodStatus_none] at h
    simp only [Option.some.injEq] at h; rw [← h]; rfl
  | some pod =>
    simp only [projectPodStatus] at h
    split at h
    · simp only [Option.some.injEq] at h; rw [← h]; rfl
    · split at h
      · simp only [Option.some.injEq] at h; rw [← h]; rfl
      · split at h
        · simp at h
        · simp only [Option.some.injEq] at h; rw [← h]; rfl

/-- The culling step issues no child-object write. -/
theorem cullStep_no_childWrites (cfg : Config) (idle podFound : Bool)
    (inst : Theia) :
    ((cullStep cfg idle podFound inst).1).countP isChildWrite = 0 := by
  unfold cullStep
  split
  · rfl
  · split <;> rfl

/-!
Claim theorems.
-/

/-- Claim C10, counterexample: getNextCondition is NOT total — on a
container state in which none of Running, Waiting, Terminated is
populated the Go code dereferences the nil `cs.Terminated` pointer and
panics (modelled as `none`), instead of returning a condition record. -/
theorem getNextCondition_all_nil_faults :
    getNextCondition 0
      { running := none, waiting := none, terminated := none } = none := rfl

/-- Claim C10 (amended): getNextCondition is total over every container
state in which at least one of the Running, Waiting or Terminated
payloads is populated, and it classifies the state as Terminated whenever
neither Running nor Waiting is populated (and Terminated is); on the
state with no payload populated the code faults. -/
theorem getNextCondition_total_of_populated (now : Nat) (cs : ContainerState)
    (h : cs.running.isSome ∨ cs.waiting.isSome ∨ cs.terminated.isSome) :
    ∃ c, getNextCondition now cs = some c ∧
      (cs.running = none → cs.waiting = none → c.condType = "Terminated") := by
  unfold getNextCondition
  cases hr : cs.running with
  | some r => simp
  | none =>
    cases hw : cs.waiting with
    | some w => simp
    | none =>
      cases ht : cs.terminated with
      | some t => simp
      | none => rw [hr, hw, ht] at h; simp at h

/-- Witness for getNextCondition_total_of_populated at a concrete
terminated-only container state. -/
theorem getNextCondition_total_of_populated_witness :
    (({ running := none, waiting := none
        terminated := some { reason := "oom", message := "killed" } } :
        ContainerState).running.isSome ∨
     ({ running := none, waiting := none
        terminated := some { reason := "oom", message := "killed" } } :
        ContainerState).waiting.isSome ∨
     ({ running := none, waiting := none
        terminated := some { reason := "oom", message := "killed" } } :
        ContainerState).terminated.isSome) ∧
    ∃ c, getNextCondition 7
        { running := none, waiting := none
          terminated := some { reason := "oom", message := "killed" } } = some c ∧
      (({ running := none, waiting := none
          terminated := some { reason := "oom", message := "killed" } } :
          ContainerState).running = none →
       ({ running := none, waiting := none
          terminated := some { reason := "oom", message := "killed" } } :
          ContainerState).waiting = none →
       c.condType = "Terminated") :=
  ⟨Or.inr (Or.inr rfl),
   getNextCondition_total_of_populated 7
     { running := none, waiting := none
       terminated := some { reason := "oom", message := "killed" } }
     (Or.inr (Or.inr rfl))⟩

/-- Projection used by the C5 counterexample: the name of the first port
of the first container of a generated StatefulSet. -/
def firstPortName (r : Option (StatefulSet × Theia)) : Option String :=
  match r with
  | some (ss, _) =>
    match ss.spec.template.spec.containers with
    | c :: _ =>
      match c.ports with
      | some (p :: _) => some p.name
      | _ => none
    | [] => none
  | none => none

/-- Claim C5, counterexample: for the sample Instance named "foo" with no
ports set, the defaulted container port entry is named by the FIXED
string "theia-port", not by the instance's name. -/
theorem default_port_name_cex :
    sampleTheia.meta.name = "foo" ∧
    firstPortName (generateStatefulSet sampleCfg sampleTheia) = some "theia-port" ∧
    "theia-port" ≠ "foo" :=
  ⟨rfl, rfl, by decide⟩

/-- Claim C5 (amended): for every Instance spec, the generated stateful
workload's first container has image equal to the configured default
image exactly when the spec's image is unset (and the spec's image
otherwise), workingDir equal to the configured default exactly when
unset, and — when no ports are set — exactly one container port entry
whose port is the default (3000) and whose name is the fixed string
"theia-port"; each default is applied only when the corresponding field
is unset. -/
theorem generateStatefulSet_defaulting (cfg : Config) (inst : Theia)
    (c0 : Container) (rest : List Container)
    (h : inst.spec.template.spec.containers = c0 :: rest) :
    ∃ ss inst1, generateStatefulSet cfg inst = some (ss, inst1) ∧
      ∃ c tl, ss.spec.template.spec.containers = c :: tl ∧
        c.image = (if c0.image = "" then DefaultImage else c0.image) ∧
        c.workingDir = (if c0.workingDir = "" then DefaultWkDir else c0.workingDir) ∧
        c.ports = some (match c0.ports with
          | none => [{ containerPort := DefaultContainerPort
                       name := "theia-port", protocol := "TCP" }]
          | some ps => ps) := by
  unfold generateStatefulSet
  rw [h]
  refine ⟨_, _, rfl, _, rest, rfl, rfl, rfl, ?_⟩
  cases c0.ports <;> rfl

/-- Witness for generateStatefulSet_defaulting at the sample Instance. -/
theorem generateStatefulSet_defaulting_witness :
    sampleTheia.spec.template.spec.containers = [sampleContainer] ∧
    ∃ ss inst1, generateStatefulSet sampleCfg sampleTheia = some (ss, inst1) ∧
      ∃ c tl, ss.spec.template.spec.containers = c :: tl ∧
        c.image = (if sampleContainer.image = "" then DefaultImage
                   else sampleContainer.image) ∧
        c.workingDir = (if sampleContainer.workingDir = "" then DefaultWkDir
                        else sampleContainer.workingDir) ∧
        c.ports = some (match sampleContainer.ports with
          | none => [{ containerPort := DefaultContainerPort
                       name := "theia-port", protocol := "TCP" }]
          | some ps => ps) :=
  ⟨rfl, generateStatefulSet_defaulting sampleCfg sampleTheia sampleContainer [] rfl⟩

/-- Claim C6: the condition-append step either leaves the history exactly
as it was or prepends the new record in front of the unmodified history;
it leaves it unchanged precisely when the current head matches the new
record in type, reason and message; and feeding a second record with the
same type/reason/message (e.g. the same classification re-observed at a
later probe time) on top of an already-appended history changes
nothing — so the same classification twice yields exactly one new
record. -/
theorem appendCondition_dedup (old : List TheiaCondition) (c : TheiaCondition) :
    (appendCondition old c = c :: old ∨ appendCondition old c = old) ∧
    (appendCondition old c = old ↔
      ∃ h0 t, old = h0 :: t ∧ h0.condType = c.condType ∧
        h0.reason = c.reason ∧ h0.message = c.message) ∧
    (∀ c2 : TheiaCondition, c2.condType = c.condType → c2.reason = c.reason →
      c2.message = c.message →
      appendCondition (appendCondition old c) c2 = appendCondition old c) := by
  refine ⟨?_, ?_, ?_⟩
  · cases old with
    | nil => exact Or.inl rfl
    | cons h0 t =>
      by_cases hd : h0.condType ≠ c.condType ∨ h0.reason ≠ c.reason ∨
          h0.message ≠ c.message
      · exact Or.inl (by rw [appendCondition, if_pos hd])
      · exact Or.inr (by rw [appendCondition, if_neg hd])
  · cases old with
    | nil =>
      simp only [appendCondition]
      constructor
      · intro he; exact absurd he (by simp)
      · rintro ⟨h0, t, he, -⟩; exact absurd he (by simp)
    | cons h0 t =>
      by_cases hd : h0.condType ≠ c.condType ∨ h0.reason ≠ c.reason ∨
          h0.message ≠ c.message
      · rw [appendCondition, if_pos hd]
        constructor
        · intro he; exact absurd he (List.cons_ne_self c (h0 :: t))
        · rintro ⟨h1, t1, he, ht, hr, hm⟩
          injection he with e1 e2
          subst e1
          rcases hd with hx | hx | hx
          · exact absurd ht hx
          · exact absurd hr hx
          · exact absurd hm hx
      · rw [appendCondition, if_neg hd]
        push_neg at hd
        exact ⟨fun _ => ⟨h0, t, rfl, hd.1, hd.2.1, hd.2.2⟩, fun _ => rfl⟩
  · intro c2 h1 h2 h3
    cases old with
    | nil =>
      show appendCondition [c] c2 = [c]
      rw [appendCondition, if_neg]
      push_neg
      exact ⟨h1.symm, h2.symm, h3.symm⟩
    | cons h0 t =>
      by_cases hd : h0.condType ≠ c.condType ∨ h0.reason ≠ c.reason ∨
          h0.message ≠ c.message
      · rw [appendCondition, if_pos hd, appendCondition, if_neg]
        push_neg
        exact ⟨h1.symm, h2.symm, h3.symm⟩
      · rw [appendCondition, if_neg hd, appendCondition, if_neg]
        push_neg at hd ⊢
        exact ⟨hd.1.trans h1.symm, hd.2.1.trans h2.symm, hd.2.2.trans h3.symm⟩

/-- Witness for appendCondition_dedup at a concrete pair of records with
equal type/reason/message and different probe times. -/
theorem appendCondition_dedup_witness :
    appendCondition
        (appendCondition []
          { condType := "Running", lastProbeTime := 1, reason := "", message := "" })
        { condType := "Running", lastProbeTime := 2, reason := "", message := "" } =
      appendCondition []
        { condType := "Running", lastProbeTime := 1, reason := "", message := "" } :=
  (appendCondition_dedup []
      { condType := "Running", lastProbeTime := 1, reason := "", message := "" }).2.2
    { condType := "Running", lastProbeTime := 2, reason := "", message := "" }
    rfl rfl rfl

/-- Claim C8: desired-state generation is total over every valid Instance
spec (at least one container; present ports nonempty): both generators
return a descriptor rather than faulting.  Both are plain functions of
the Instance and the static configuration alone — the embedding gives
them no access to any observed cluster state, so determinism is by
construction. -/
theorem generators_total (cfg : Config) (inst : Theia)
    (h : validTheia inst = true) :
    (∃ r, generateStatefulSet cfg inst = some r) ∧
    (∃ s, generateService inst = some s) := by
  obtain ⟨m, ⟨⟨ann, ⟨cs, sc⟩, pvc⟩⟩, st⟩ := inst
  cases cs with
  | nil => exact absurd h (by simp [validTheia])
  | cons c0 rest =>
    obtain ⟨img, wd, ports, env, vm⟩ := c0
    constructor
    · exact ⟨_, rfl⟩
    · rcases ports with _ | ⟨_ | ⟨p, ps⟩⟩
      · exact ⟨_, rfl⟩
      · exact absurd h (by simp [validTheia])
      · exact ⟨_, rfl⟩

/-- Witness for generators_total at the sample Instance. -/
theorem generators_total_witness :
    validTheia sampleTheia = true ∧
    ((∃ r, generateStatefulSet sampleCfg sampleTheia = some r) ∧
     (∃ s, generateService sampleTheia = some s)) :=
  ⟨rfl, generators_total sampleCfg sampleTheia rfl⟩

/-- Predicate: a status sub-resource update action. -/
def isStatusWrite : Action → Bool
  | Action.statusUpdate _ => true
  | _ => false

/-- Predicate: a whole-Instance update action. -/
def isInstanceUpdate : Action → Bool
  | Action.instanceUpdate _ => true
  | _ => false

/-- The (StatefulSet, mutated instance) pair generated for the sample
Instance. -/
def sampleGen : StatefulSet × Theia :=
  (generateStatefulSet sampleCfg sampleTheia).getD (emptyStatefulSet, sampleTheia)

/-- Cluster where both children exist and already match the desired
state, and the pod exists. -/
def sampleClusterMatching : Cluster :=
  { foundStateful := some sampleSS, foundService := some sampleSvc
    foundVirtual := none, pod := some samplePod }

/-- Cluster where both children exist and match, but no pod exists. -/
def sampleClusterNoPod : Cluster :=
  { foundStateful := some sampleSS, foundService := some sampleSvc
    foundVirtual := none, pod := none }

/-- Sample Instance whose recorded readyReplicas (1) disagrees with the
observed StatefulSet's (0). -/
def sampleTheiaRR : Theia :=
  { sampleTheia with
    status := { readyReplicas := 1, containerState := {}, conditions := [] } }

/-- Claim C1: when the StatefulSet and Service are already found in the
cluster with managed fields matching the desired state (and, when Istio
is enabled, the route object matches too), the pass issues zero create
and zero update calls on the child objects — the upsert engine writes
only when the object was not found or a managed field differs, so
reconciling an unchanged Instance a second time performs no child
writes. -/
theorem reconcile_unchanged_no_child_writes
    (cfg : Config) (inst : Theia) (cl : Cluster) (idle : Bool) (now : Nat)
    (ss : StatefulSet) (inst1 : Theia) (svc : Service)
    (fs : StatefulSet) (fsvc : Service) (r : List Action × CtrlResult × Theia)
    (hgen : generateStatefulSet cfg inst = some (ss, inst1))
    (hsvc : generateService inst1 = some svc)
    (hfs : cl.foundStateful = some fs)
    (hcss : (copyStatefulSetFields ss fs).1 = false)
    (hfsvc : cl.foundService = some fsvc)
    (hcsvc : (copyServiceFields svc fsvc).1 = false)
    (hvs : cfg.useIstio = true →
      ∃ fv, cl.foundVirtual = some fv ∧
        (copyVirtualService (generateVirtualService cfg inst1) fv).1 = false)
    (hr : reconcileInstance cfg inst cl idle now = some r) :
    r.1.countP isChildWrite = 0 := by
  obtain ⟨ss', inst1', svc', ps, hgen', hsvc', hps, hreq⟩ :=
    reconcileInstance_inv cfg inst cl idle now r hr
  have hpair : (ss, inst1) = (ss', inst1') :=
    Option.some.inj (hgen.symm.trans hgen')
  have hss : ss = ss' := congrArg Prod.fst hpair
  have hi1 : inst1 = inst1' := congrArg Prod.snd hpair
  subst hss
  subst hi1
  have hsvcEq : svc = svc' := Option.some.inj ((hsvc.symm.trans hsvc'))
  subst hsvcEq
  subst hreq
  simp only [List.countP_append]
  have hA : (upsertStatefulSet ss cl.foundStateful).1 = [] := by
    rw [hfs]
    unfold upsertStatefulSet
    simp [hcss]
  have hB : upsertService svc cl.foundService = [] := by
    rw [hfsvc]
    unfold upsertService
    simp [hcsvc]
  have hC : upsertVirtualService cfg inst1 cl.foundVirtual = [] := by
    unfold upsertVirtualService
    cases hui : cfg.useIstio with
    | false => simp
    | true =>
      obtain ⟨fv, hfv, hcv⟩ := hvs hui
      simp only [if_pos rfl]
      rw [hfv]
      simp [hcv]
  rw [hA, hB, hC]
  simp only [List.countP_nil]
  have hD := syncReadyReplicas_no_childWrites
    (upsertStatefulSet ss cl.foundStateful).2 inst1
  have hE := projectPodStatus_no_childWrites now
    (syncReadyReplicas (upsertStatefulSet ss cl.foundStateful).2 inst1).2
    cl.pod ps hps
  have hF := cullStep_no_childWrites cfg idle ps.2.2 ps.2.1
  omega

/-- Witness for reconcile_unchanged_no_child_writes: the sample Instance
against a cluster whose children equal the generated ones. -/
theorem reconcile_unchanged_no_child_writes_witness :
    (copyStatefulSetFields sampleGen.1 sampleSS).1 = false ∧
    (copyServiceFields sampleSvc sampleSvc).1 = false ∧
    ((reconcileInstance sampleCfg sampleTheia sampleClusterMatching false
        0).getD ([], { requeueAfter := none }, sampleTheia)).1.countP
      isChildWrite = 0 :=
  ⟨rfl, rfl,
   reconcile_unchanged_no_child_writes sampleCfg sampleTheia
     sampleClusterMatching false 0 sampleGen.1 sampleGen.2 sampleSvc
     sampleSS sampleSvc _ rfl rfl rfl rfl rfl rfl
     (fun h => absurd h (by decide)) rfl⟩

/-- Claim C2: with the pod present — if the stop directive is absent and
the idle predicate reports idle, the pass sets the stop directive on the
written Instance, increments the culling-count metric, issues the
Instance write, and the next stateful-workload generation on that
Instance produces replica count 0; if the directive is already set, the
pass performs no culling action and terminates without requeue. -/
theorem culling_transition
    (cfg : Config) (inst : Theia) (cl : Cluster) (idle : Bool) (now : Nat)
    (p : Pod) (r : List Action × CtrlResult × Theia)
    (hpod : cl.pod = some p)
    (hr : reconcileInstance cfg inst cl idle now = some r) :
    (stopAnnotationIsSet inst.meta = false → idle = true →
       stopAnnotationIsSet r.2.2.meta = true ∧
       Action.theiaCullingCountInc ∈ r.1 ∧
       Action.instanceUpdate r.2.2 ∈ r.1 ∧
       ∀ cfg2 ss2 i2, generateStatefulSet cfg2 r.2.2 = some (ss2, i2) →
         ss2.spec.replicas = 0) ∧
    (stopAnnotationIsSet inst.meta = true →
       r.1.countP isCullingAction = 0 ∧ r.2.1.requeueAfter = none) := by
  obtain ⟨ss, inst1, svc, ps, hgen, hsvc, hps, hreq⟩ :=
    reconcileInstance_inv cfg inst cl idle now r hr
  have hm1 : inst1.meta = inst.meta :=
    (generateStatefulSet_meta_status cfg inst ss inst1 hgen).1
  have hm2 :=
    (syncReadyReplicas_frame (upsertStatefulSet ss cl.foundStateful).2 inst1).1
  have hm3 := (projectPodStatus_frame now
    (syncReadyReplicas (upsertStatefulSet ss cl.foundStateful).2 inst1).2
    cl.pod ps hps).1
  have hmeta : ps.2.1.meta = inst.meta := by rw [hm3, hm2, hm1]
  have hfound : ps.2.2 = true := by
    rw [hpod] at hps
    exact projectPodStatus_podFound now _ p ps hps
  constructor
  · intro hstop hidle
    subst hidle
    have hcull := cullStep_cull cfg ps.2.1 (by rw [hmeta]; exact hstop)
    rw [hfound, hcull] at hreq
    subst hreq
    refine ⟨?_, ?_, ?_, ?_⟩
    · exact stopAnnotationIsSet_setStopAnnot ps.2.1.meta
    · simp
    · simp
    · intro cfg2 ss2 i2 hg2
      rw [generateStatefulSet_replicas cfg2 _ ss2 i2 hg2]
      simp [stopAnnotationIsSet_setStopAnnot]
  · intro hstop
    have hculled := cullStep_culled cfg idle ps.2.1 (by rw [hmeta]; exact hstop)
    rw [hfound, hculled] at hreq
    subst hreq
    constructor
    · simp only [List.countP_append, List.countP_nil]
      rw [upsertStatefulSet_no_cullActs, upsertService_no_cullActs,
          upsertVirtualService_no_cullActs, syncReadyReplicas_no_cullActs,
          projectPodStatus_no_cullActs now
            (syncReadyReplicas (upsertStatefulSet ss cl.foundStateful).2 inst1).2
            cl.pod ps hps]
    · rfl

/-- The reconcile output for the sample Instance in the cull scenario
(pod present, idle, no stop directive). -/
def sampleCullResult : List Action × CtrlResult × Theia :=
  (reconcileInstance sampleCfg sampleTheia sampleClusterMatching true 0).getD
    ([], { requeueAfter := none }, sampleTheia)

/-- Witness for culling_transition at the sample cull scenario. -/
theorem culling_transition_witness :
    stopAnnotationIsSet sampleTheia.meta = false ∧
    stopAnnotationIsSet sampleCullResult.2.2.meta = true ∧
    Action.theiaCullingCountInc ∈ sampleCullResult.1 ∧
    Action.instanceUpdate sampleCullResult.2.2 ∈ sampleCullResult.1 := by
  have h := culling_transition sampleCfg sampleTheia sampleClusterMatching
    true 0 samplePod sampleCullResult rfl rfl
  obtain ⟨a, b, c, -⟩ := h.1 rfl rfl
  exact ⟨rfl, a, b, c⟩

/-- Claim C3: with the pod present, the stop directive absent and the
idle predicate reporting not idle, the pass result carries a requeue
delay equal to the configured interval and the directive stays unset;
with no pod, the culling machine takes no action at all — no directive is
set (the metadata is untouched by the whole pass) and no requeue is
scheduled. -/
theorem requeue_scheduling
    (cfg : Config) (inst : Theia) (cl : Cluster) (idle : Bool) (now : Nat)
    (r : List Action × CtrlResult × Theia)
    (hr : reconcileInstance cfg inst cl idle now = some r) :
    ((∀ p, cl.pod = some p → stopAnnotationIsSet inst.meta = false →
        idle = false →
        r.2.1.requeueAfter = some cfg.requeueTime ∧
        stopAnnotationIsSet r.2.2.meta = false) ∧
     (cl.pod = none →
        r.2.1.requeueAfter = none ∧ r.2.2.meta = inst.meta)) := by
  obtain ⟨ss, inst1, svc, ps, hgen, hsvc, hps, hreq⟩ :=
    reconcileInstance_inv cfg inst cl idle now r hr
  have hm1 : inst1.meta = inst.meta :=
    (generateStatefulSet_meta_status cfg inst ss inst1 hgen).1
  have hm2 :=
    (syncReadyReplicas_frame (upsertStatefulSet ss cl.foundStateful).2 inst1).1
  have hm3 := (projectPodStatus_frame now
    (syncReadyReplicas (upsertStatefulSet ss cl.foundStateful).2 inst1).2
    cl.pod ps hps).1
  have hmeta : ps.2.1.meta = inst.meta := by rw [hm3, hm2, hm1]
  constructor
  · intro p hp hstop hidle
    subst hidle
    have hfound : ps.2.2 = true := by
      rw [hp] at hps
      exact projectPodStatus_podFound now _ p ps hps
    have hc := cullStep_requeue cfg ps.2.1 (by rw [hmeta]; exact hstop)
    rw [hfound, hc] at hreq
    subst hreq
    refine ⟨rfl, ?_⟩
    rw [show ((upsertStatefulSet ss cl.foundStateful).1 ++
        upsertService svc cl.foundService ++
        upsertVirtualService cfg inst1 cl.foundVirtual ++
        (syncReadyReplicas (upsertStatefulSet ss cl.foundStateful).2 inst1).1 ++
        ps.1 ++ [],
        ({ requeueAfter := some cfg.requeueTime } : CtrlResult),
        ps.2.1).2.2.meta = ps.2.1.meta from rfl, hmeta]
    exact hstop
  · intro hp
    rw [hp, projectPodStatus_none] at hps
    have h2 := Option.some.inj hps
    have hfound : ps.2.2 = false := by rw [← h2]
    rw [hfound, cullStep_noPod] at hreq
    subst hreq
    exact ⟨rfl, hmeta⟩

/-- Witness for requeue_scheduling at the sample not-idle scenario. -/
theorem requeue_scheduling_witness :
    stopAnnotationIsSet sampleTheia.meta = false ∧
    ((reconcileInstance sampleCfg sampleTheia sampleClusterMatching false
        0).getD ([], { requeueAfter := none }, sampleTheia)).2.1.requeueAfter =
      some sampleCfg.requeueTime := by
  have h := requeue_scheduling sampleCfg sampleTheia sampleClusterMatching
    false 0
    ((reconcileInstance sampleCfg sampleTheia sampleClusterMatching false
        0).getD ([], { requeueAfter := none }, sampleTheia)) rfl
  exact ⟨rfl, (h.1 samplePod rfl rfl rfl).1⟩

/-- Claim C4, counterexample: with the pod absent but the observed
StatefulSet reporting 0 ready replicas against a recorded value of 1,
the pass still updates the Instance's readyReplicas (one status write,
final value 0) — so "status projection is skipped entirely" is false for
the readyReplicas field. -/
theorem podAbsent_readyReplicas_updated_cex :
    sampleClusterNoPod.pod = none ∧
    sampleTheiaRR.status.readyReplicas = 1 ∧
    (reconcileInstance sampleCfg sampleTheiaRR sampleClusterNoPod false
        0).map
        (fun r => (r.2.2.status.readyReplicas, r.1.countP isStatusWrite)) =
      some (0, 1) :=
  ⟨rfl, rfl, rfl⟩

/-- Claim C4 (amended): when the Instance's first pod does not exist,
the container-state/conditions projection is skipped for the pass — the
final Instance carries exactly the recorded containerState and condition
history it started with — and the absent pod is not an error (the pass
completes); the readyReplicas field, however, is synced from the observed
StatefulSet independently of the pod. -/
theorem podAbsent_skips_containerState
    (cfg : Config) (inst : Theia) (cl : Cluster) (idle : Bool) (now : Nat)
    (r : List Action × CtrlResult × Theia)
    (hpod : cl.pod = none)
    (hr : reconcileInstance cfg inst cl idle now = some r) :
    r.2.2.status.containerState = inst.status.containerState ∧
    r.2.2.status.conditions = inst.status.conditions := by
  obtain ⟨ss, inst1, svc, ps, hgen, hsvc, hps, hreq⟩ :=
    reconcileInstance_inv cfg inst cl idle now r hr
  have hst1 : inst1.status = inst.status :=
    (generateStatefulSet_meta_status cfg inst ss inst1 hgen).2
  have hsy :=
    syncReadyReplicas_frame (upsertStatefulSet ss cl.foundStateful).2 inst1
  rw [hpod, projectPodStatus_none] at hps
  have h2 := Option.some.inj hps
  have hfound : ps.2.2 = false := by rw [← h2]
  have hinst : ps.2.1 =
      (syncReadyReplicas (upsertStatefulSet ss cl.foundStateful).2 inst1).2 := by
    rw [← h2]
  rw [hfound, cullStep_noPod] at hreq
  subst hreq
  constructor
  · show ps.2.1.status.containerState = inst.status.containerState
    rw [hinst, hsy.2.1]
    exact congrArg TheiaStatus.containerState hst1
  · show ps.2.1.status.conditions = inst.status.conditions
    rw [hinst, hsy.2.2.1]
    exact congrArg TheiaStatus.conditions hst1

/-- Witness for podAbsent_skips_containerState at the sample no-pod
scenario. -/
theorem podAbsent_skips_containerState_witness :
    sampleClusterNoPod.pod = none ∧
    ((reconcileInstance sampleCfg sampleTheiaRR sampleClusterNoPod false
        0).getD ([], { requeueAfter := none }, sampleTheiaRR)).2.2.status.conditions =
      sampleTheiaRR.status.conditions :=
  ⟨rfl,
   (podAbsent_skips_containerState sampleCfg sampleTheiaRR sampleClusterNoPod
     false 0 _ rfl rfl).2⟩

/-- Claim C9, failing input: the culling pass on the sample Instance
(one container with image/workingDir/ports unset, pod present, idle, no
stop directive) issues exactly one whole-Instance write, and the
Instance it writes carries a spec DIFFERENT from the fetched one: the
generator's defaulting and env/volumeMount appends reached the in-memory
instance through the shared containers slice, so the culling update
persists a mutated spec (first container image now the default image
instead of the original empty string). -/
theorem culling_update_writes_mutated_spec :
    stopAnnotationIsSet sampleTheia.meta = false ∧
    sampleTheia.spec.template.spec.containers.map (fun c => c.image) = [""] ∧
    (reconcileInstance sampleCfg sampleTheia sampleClusterMatching true
        0).map
        (fun r => (decide (r.2.2.spec = sampleTheia.spec),
                   r.1.countP isInstanceUpdate,
                   r.2.2.spec.template.spec.containers.map (fun c => c.image))) =
      some (false, 1, [DefaultImage]) :=
  ⟨rfl, rfl, rfl⟩

/-- Pod-getter fixture for event resolution: ns/pod-1 exists and carries
no labels. -/
def samplePodGet : String → String → Option Pod :=
  fun nspace name =>
    if nspace = "ns" && name = "pod-1" then some samplePod else none

/-- Event fixture whose involved object is the unlabeled pod ns/pod-1. -/
def sampleBadEvent : Event :=
  { involvedObject := { kind := "Pod", name := "pod-1", nspace := "ns" }
    etype := "Warning", reason := "BackOff", message := "restarting" }

/-- Claim C7, counterexample: when the involved pod carries no
parent-name label, the reconcile pass does NOT silently drop the event —
it returns the resolution error (the request is then retried by the
runtime), contradicting "the reconcile pass does not return an error and
the event is not retried". -/
theorem resolution_error_not_silent_cex :
    lookupKV samplePod.labels "theia-name" = none ∧
    reconcileEventStep samplePodGet (fun _ => true) (some sampleBadEvent) =
      EventOutcome.errorReturn :=
  ⟨rfl, rfl⟩

/-- Claim C7 (amended): an event whose involved object cannot be mapped
to a parent Instance is never relayed; it is silently dropped at the
watch-predicate layer (the event predicate returns false, so no
reconcile request is enqueued for it); but a reconcile pass that itself
encounters such an event returns the resolution error rather than
dropping it silently. -/
theorem unresolvable_event_handling
    (getPod : String → String → Option Pod)
    (theiaExists : String → String → Bool) (theiaFound : String → Bool)
    (e : Event) (nspace : String) (err : ResolveErr)
    (hres : theiaNameFromInvolvedObject getPod e.involvedObject =
      Except.error err) :
    eventCreatePred getPod theiaExists e nspace = false ∧
    reconcileEventStep getPod theiaFound (some e) =
      EventOutcome.errorReturn ∧
    ∀ n, reconcileEventStep getPod theiaFound (some e) ≠
      EventOutcome.relayed n := by
  refine ⟨?_, ?_, ?_⟩
  · simp [eventCreatePred, hres]
  · simp [reconcileEventStep, hres]
  · intro n
    simp [reconcileEventStep, hres]

/-- Witness for unresolvable_event_handling at the unlabeled-pod
event. -/
theorem unresolvable_event_handling_witness :
    theiaNameFromInvolvedObject samplePodGet sampleBadEvent.involvedObject =
      Except.error ResolveErr.notRelated ∧
    (eventCreatePred samplePodGet (fun _ _ => true) sampleBadEvent "ns" =
        false ∧
      reconcileEventStep samplePodGet (fun _ => true) (some sampleBadEvent) =
        EventOutcome.errorReturn ∧
      ∀ n, reconcileEventStep samplePodGet (fun _ => true)
          (some sampleBadEvent) ≠ EventOutcome.relayed n) :=
  ⟨rfl,
   unresolvable_event_handling samplePodGet (fun _ _ => true) (fun _ => true)
     sampleBadEvent "ns" ResolveErr.notRelated rfl⟩

end TheiaController
